import Mathlib

/-!
Shallow embedding of the logit-backend cargo subsystem.

Sources embedded:
* `cargo/models.py` — `Cargo.save`, `Cargo.approve`, status enumerations;
* `cargo/serializers.py` — `CargoUpdateSerializer.validate_status`,
  `CarrierRequestUpdateSerializer.validate_status`,
  `CargoAssignmentSerializer.validate_carrier_request` / `update`;
* `cargo/views.py` — `ExternalCargoViewSet.create_external`,
  `CargoViewSet.matching_carriers`;
* `core/services/location.py` — `LocationService.calculate_distance`,
  `LocationService.find_locations_in_radius`.

Conventions: Django `DecimalField` values are rationals (`ℚ`), nullable
fields are `Option`, dates and datetimes are naturals (chronologically
ordered encodings, e.g. `YYYYMMDD`), user primary keys are naturals.
Python truthiness of a nullable decimal (`None` and `0` are falsy) is
`truthyQ`.  Telegram notification dispatch is I/O and has no effect on the
persisted rows, so it is not part of the state transformers.
-/

namespace Logit

/-- `Cargo.CargoStatus` from `cargo/models.py`. -/
inductive CargoStatus
  | draft
  | pending_approval
  | manager_approved
  | pending
  | assigned
  | in_progress
  | completed
  | cancelled
  | rejected
  | expired
  deriving DecidableEq, Repr

/-- `CarrierRequest.RequestStatus` from `cargo/models.py`. -/
inductive CRStatus
  | pending
  | assigned
  | accepted
  | rejected
  | completed
  | cancelled
  deriving DecidableEq, Repr

/-- `User.UserRole` from `users/models.py`. -/
inductive Role
  | student
  | carrier
  | cargo_owner
  | logistics_company
  | transport_company
  | logit_trans
  | manager
  deriving DecidableEq, Repr

/-- The fields of `users.models.User` the cargo subsystem reads. -/
structure User where
  id : Nat
  role : Role
  is_active : Bool
  deriving DecidableEq, Repr

/-- The fields of `cargo.models.Cargo` used by the embedded operations. -/
structure Cargo where
  id : Nat
  title : String
  status : CargoStatus
  weight : Option ℚ
  volume : Option ℚ
  length : Option ℚ
  width : Option ℚ
  height : Option ℚ
  loading_point : String
  unloading_point : String
  loading_date : Nat
  owner : Nat
  assigned_to : Option Nat
  managed_by : Option Nat
  approved_by : Option Nat
  approval_notes : Option String
  approval_date : Option Nat
  deriving DecidableEq, Repr

/-- The fields of `cargo.models.CarrierRequest` used by the embedded
operations. -/
structure CarrierRequest where
  id : Nat
  carrier : Nat
  loading_point : String
  unloading_point : String
  ready_date : Nat
  status : CRStatus
  assigned_cargo : Option Nat
  assigned_by : Option Nat
  assigned_at : Option Nat
  deriving DecidableEq, Repr

/-- Python truthiness of a nullable decimal: `None` and `0` are falsy. -/
def truthyQ : Option ℚ → Bool
  | none => false
  | some x => decide (x ≠ 0)

/-- `Cargo.save` (`cargo/models.py`): recomputes `volume` when
`all([length, width, height])` is truthy, and defaults `approval_date`
when `approved_by` is set but `approval_date` is not.  The surrounding
notification dispatch only sends messages. -/
def cargoSave (now : Nat) (c : Cargo) : Cargo :=
  let c1 :=
    if truthyQ c.length && truthyQ c.width && truthyQ c.height then
      { c with volume := some (c.length.getD 0 * c.width.getD 0 * c.height.getD 0) }
    else c
  if c1.approved_by.isSome && c1.approval_date.isNone then
    { c1 with approval_date := some now }
  else c1

/-- Errors raised while validating a serializer field: DRF
`serializers.ValidationError` carrying a message, or an uncaught Python
`KeyError` from a missing dictionary key. -/
inductive VErr
  | validation (msg : String)
  | keyError
  deriving DecidableEq, Repr

/-- The `valid_transitions` dictionary of
`CargoUpdateSerializer.validate_status` (`cargo/serializers.py`).
`none` is the absence of a key (looking it up raises `KeyError`). -/
def cargoValidTransitions : CargoStatus → Option (List CargoStatus)
  | .draft => some [.pending, .cancelled]
  | .pending => some [.assigned, .cancelled]
  | .assigned => some [.in_progress, .cancelled]
  | .in_progress => some [.completed, .cancelled]
  | .completed => some []
  | .cancelled => some [.draft]
  | .expired => some [.draft]
  | _ => none

/-- The final check of both `validate_status` methods:
`if value != current_status and value not in valid_transitions[current_status]`.
Python's `and` short-circuits, so the dictionary is only consulted when
`value != current_status`. -/
def transitionCheck {σ : Type} [DecidableEq σ]
    (table : σ → Option (List σ)) (current value : σ) : Except VErr Unit :=
  if value = current then .ok ()
  else
    match table current with
    | none => .error .keyError
    | some allowed =>
        if value ∈ allowed then .ok ()
        else .error (.validation "Cannot transition")

/-- The role-based validation preceding the transition-table check in
`CargoUpdateSerializer.validate_status`. -/
def roleOverlayCheck (u : User) (c : Cargo) (value : CargoStatus) : Except VErr Unit :=
  if u.role = .student then
    if c.status = .pending ∧ value = .assigned ∧ c.assigned_to = none then
      .error (.validation "Cannot mark as assigned without carrier")
    else .ok ()
  else if u.role = .carrier then
    if c.assigned_to ≠ some u.id then
      .error (.validation "You can only update status of cargos assigned to you")
    else if value ∉ [CargoStatus.in_progress, CargoStatus.completed] then
      .error (.validation "Invalid status transition for carrier")
    else .ok ()
  else .ok ()

/-- `CargoUpdateSerializer.validate_status`: role overlay first, then the
transition table. -/
def cargoValidateStatus (u : User) (c : Cargo) (value : CargoStatus) :
    Except VErr CargoStatus :=
  match roleOverlayCheck u c value with
  | .error e => .error e
  | .ok _ =>
      match transitionCheck cargoValidTransitions c.status value with
      | .error e => .error e
      | .ok _ => .ok value

/-- A status-only update through `CargoUpdateSerializer`: DRF runs the
field validator; only when it succeeds does `ModelSerializer.update` set
the attribute and call `Cargo.save`. -/
def applyStatusUpdate (u : User) (now : Nat) (c : Cargo) (value : CargoStatus) :
    Except VErr Cargo :=
  match cargoValidateStatus u c value with
  | .error e => .error e
  | .ok v => .ok (cargoSave now { c with status := v })

/-- The persisted cargo row after a status-update request: unchanged when
validation rejects the request. -/
def cargoAfterStatusUpdate (u : User) (now : Nat) (c : Cargo)
    (value : CargoStatus) : Cargo :=
  match applyStatusUpdate u now c value with
  | .error _ => c
  | .ok c2 => c2

/-- The `valid_transitions` dictionary of
`CarrierRequestUpdateSerializer.validate_status` (`cargo/serializers.py`). -/
def crValidTransitions : CRStatus → Option (List CRStatus)
  | .pending => some [.cancelled]
  | .assigned => some [.accepted, .rejected]
  | .accepted => some [.completed, .cancelled]
  | .rejected => some [.pending]
  | .completed => some []
  | .cancelled => some [.pending]

/-- `CarrierRequestUpdateSerializer.validate_status` (instance present):
only the transition-table check, no role overlay. -/
def crValidateStatus (inst : CarrierRequest) (value : CRStatus) :
    Except VErr CRStatus :=
  match transitionCheck crValidTransitions inst.status value with
  | .error e => .error e
  | .ok _ => .ok value

/-- `CargoAssignmentSerializer`: `validate_carrier_request` followed, on
success, by `update` (`cargo/serializers.py`).  `u` is the requesting
user, `now` the value of `timezone.now()`. -/
def assignCarrier (u : User) (now : Nat) (c : Cargo) (cr : CarrierRequest) :
    Except VErr (Cargo × CarrierRequest) :=
  if cr.status ≠ .pending then
    .error (.validation "Can only assign pending carrier requests")
  else if cr.assigned_cargo.isSome then
    .error (.validation "Carrier request already assigned to another cargo")
  else
    let c2 := cargoSave now
      { c with status := .assigned, assigned_to := some cr.carrier,
               managed_by := some u.id }
    let cr2 := { cr with status := .assigned, assigned_cargo := some c.id,
                         assigned_by := some u.id, assigned_at := some now }
    .ok (c2, cr2)

/-- The persisted pair after an assignment request: unchanged when the
serializer rejects it. -/
def assignAfter (u : User) (now : Nat) (c : Cargo) (cr : CarrierRequest) :
    Cargo × CarrierRequest :=
  match assignCarrier u now c cr with
  | .error _ => (c, cr)
  | .ok p => p

/-- `Cargo.approve` (`cargo/models.py`): rejects non-managers with
`ValueError`, otherwise sets status, `approved_by`, `approval_notes`,
`approval_date` and saves. -/
def cargoApprove (manager : User) (notes : Option String) (now : Nat)
    (c : Cargo) : Except String Cargo :=
  if manager.role ≠ .manager then .error "Only managers can approve cargos"
  else
    .ok (cargoSave now
      { c with status := .manager_approved, approved_by := some manager.id,
               approval_notes := notes, approval_date := some now })

/-- The persisted cargo row after an approve attempt: unchanged when the
attempt raised. -/
def cargoAfterApprove (manager : User) (notes : Option String) (now : Nat)
    (c : Cargo) : Cargo :=
  match cargoApprove manager notes now c with
  | .error _ => c
  | .ok c2 => c2

/-! ### External cargo ingestion (`ExternalCargoViewSet.create_external`) -/

/-- One element of the `orders` array of an external ingestion request.
Its payload is opaque to the authentication logic. -/
structure ExternalOrder where
  source_id : String
  payload : String
  deriving DecidableEq, Repr

/-- The record returned for each cargo created from an order. -/
structure CreatedCargo where
  id : Nat
  title : String
  source_id : String
  deriving DecidableEq, Repr

/-- The HTTP outcomes of `create_external`: 400, 401, or 201 with the
per-order results. -/
inductive ExternalResponse
  | badRequest (msg : String)
  | unauthorized
  | created (cargos : List CreatedCargo) (errors : List String)
  deriving DecidableEq, Repr

/-- `ExternalCargoViewSet.create_external` (`cargo/views.py`).
`md5hex` stands for `hashlib.md5(·.encode()).hexdigest()` (a stdlib
function, kept abstract); `private_key` is `settings.PRIVATE_API_KEY`;
`process` is the per-order `Cargo.objects.create` with its data-type
conversion, whose per-order exceptions are caught and reported.
`all([...])` on the four request fields is string/list truthiness. -/
def createExternal (md5hex : String → String) (private_key : String)
    (process : ExternalOrder → Except String CreatedCargo)
    (api_key created_at received_hash : String) (orders : List ExternalOrder) :
    ExternalResponse :=
  if api_key = "" ∨ created_at = "" ∨ received_hash = "" ∨ orders = [] then
    .badRequest "Missing required fields"
  else if md5hex (private_key ++ api_key ++ created_at) ≠ received_hash then
    .unauthorized
  else
    let results := orders.map process
    .created
      (results.filterMap fun r => match r with | .ok cc => some cc | .error _ => none)
      (results.filterMap fun r => match r with | .ok _ => none | .error e => some e)

/-- The Cargo records an ingestion request created. -/
def externalCreatedRecords : ExternalResponse → List CreatedCargo
  | .created cs _ => cs
  | _ => []

/-! ### Matching carriers (`CargoViewSet.matching_carriers`) -/

/-- ASCII lower-casing of one character (the case folding `icontains`
applies to the point strings at hand). -/
def lowerChar (c : Char) : Char :=
  if c.toNat ≥ 65 ∧ c.toNat ≤ 90 then Char.ofNat (c.toNat + 32) else c

/-- Django `field__icontains=needle`: case-insensitive substring test. -/
def icontains (haystack needle : String) : Bool :=
  decide (List.IsInfix (needle.toList.map lowerChar)
    (haystack.toList.map lowerChar))

/-- `CargoViewSet.matching_carriers` (`cargo/views.py`): the filter
`status='pending', ready_date__lte=cargo.loading_date,
loading_point__icontains=..., unloading_point__icontains=...` applied to
the carrier-request table. -/
def matchingCarriers (c : Cargo) (requests : List CarrierRequest) :
    List CarrierRequest :=
  requests.filter fun r =>
    decide (r.status = .pending) && decide (r.ready_date ≤ c.loading_date)
      && icontains r.loading_point c.loading_point
      && icontains r.unloading_point c.unloading_point

/-! ### Location service (`core/services/location.py`) -/

/-- The row shape of `core.models.Location` used by `LocationService`.
Coordinates are nullable decimals. -/
structure Location where
  id : Nat
  name : String
  level : Nat
  latitude : Option ℚ
  longitude : Option ℚ
  full_name : String
  deriving DecidableEq, Repr

/-- `math.atan2` over the reals. -/
noncomputable def atan2 (y x : ℝ) : ℝ :=
  if 0 < x then Real.arctan (y / x)
  else if x < 0 ∧ 0 ≤ y then Real.arctan (y / x) + Real.pi
  else if x < 0 then Real.arctan (y / x) - Real.pi
  else if 0 < y then Real.pi / 2
  else if y < 0 then -(Real.pi / 2)
  else 0

/-- The intermediate `a` of the Haversine formula in
`LocationService.calculate_distance`, with `radians(x) = x·π/180`. -/
noncomputable def havA (lat1 lon1 lat2 lon2 : ℝ) : ℝ :=
  Real.sin ((lat2 * Real.pi / 180 - lat1 * Real.pi / 180) / 2) ^ 2 +
    Real.cos (lat1 * Real.pi / 180) * Real.cos (lat2 * Real.pi / 180) *
      Real.sin ((lon2 * Real.pi / 180 - lon1 * Real.pi / 180) / 2) ^ 2

/-- `LocationService.calculate_distance`: Haversine distance with Earth
radius `R = 6371` km, `c = 2 * atan2(sqrt(a), sqrt(1-a))`. -/
noncomputable def calculate_distance (lat1 lon1 lat2 lon2 : ℝ) : ℝ :=
  6371 * (2 * atan2 (Real.sqrt (havA lat1 lon1 lat2 lon2))
      (Real.sqrt (1 - havA lat1 lon1 lat2 lon2)))

/-- Python `round(x, 2)` over the reals (ties are measure-zero; Lean's
`round` is used for the tie rule). -/
noncomputable def round2 (x : ℝ) : ℝ := (round (x * 100) : ℤ) / 100

/-- The distance computed for a candidate row inside
`find_locations_in_radius` (only reached when both coordinates are
truthy, so the `getD 0` defaults are never taken there). -/
noncomputable def locDist (qlat qlon : ℝ) (loc : Location) : ℝ :=
  calculate_distance qlat qlon ((loc.latitude.getD 0 : ℚ) : ℝ)
    ((loc.longitude.getD 0 : ℚ) : ℝ)

/-- The result dictionary appended for a matching location. -/
structure LocEntry where
  id : Nat
  name : String
  distance : ℝ
  latitude : Option ℚ
  longitude : Option ℚ
  full_name : String

/-- The dictionary built for location `loc` (distance rounded to two
decimals, as in the source). -/
noncomputable def locEntry (qlat qlon : ℝ) (loc : Location) : LocEntry :=
  { id := loc.id, name := loc.name, distance := round2 (locDist qlat qlon loc),
    latitude := loc.latitude, longitude := loc.longitude,
    full_name := loc.full_name }

section

attribute [local instance] Classical.propDecidable

/-- `LocationService.find_locations_in_radius`: scan the rows of the given
`level`, keep those whose coordinates are truthy (`if location.latitude
and location.longitude`) and whose distance is at most `radius`, and sort
the result dictionaries ascending by their `distance` key (`sorted` is
stable; insertion sort is the stable sort). -/
noncomputable def find_locations_in_radius (qlat qlon radius : ℝ) (level : Nat)
    (locations : List Location) : List LocEntry :=
  let results := (locations.filter fun l => l.level = level).filterMap
    fun loc =>
      if truthyQ loc.latitude && truthyQ loc.longitude then
        if locDist qlat qlon loc ≤ radius then some (locEntry qlat qlon loc)
        else none
      else none
  List.insertionSort (fun a b => a.distance ≤ b.distance) results

end

/-! ## Helper lemmas -/

/-- `Cargo.save` only writes `volume` and `approval_date`. -/
lemma cargoSave_preserves (now : Nat) (c : Cargo) :
    (cargoSave now c).status = c.status ∧
    (cargoSave now c).assigned_to = c.assigned_to ∧
    (cargoSave now c).approved_by = c.approved_by ∧
    (cargoSave now c).approval_notes = c.approval_notes ∧
    (cargoSave now c).managed_by = c.managed_by ∧
    (cargoSave now c).id = c.id := by
  simp only [cargoSave]
  split_ifs <;> simp

/-- `Cargo.save` keeps an already-set `approval_date`. -/
lemma cargoSave_approval_date (now d : Nat) (c : Cargo)
    (h : c.approval_date = some d) : (cargoSave now c).approval_date = some d := by
  simp only [cargoSave]
  split_ifs with h1 h2 h3 <;> simp_all

/-- Every error of the role overlay is a `ValidationError`. -/
lemma roleOverlay_ok_or_validation (u : User) (c : Cargo) (value : CargoStatus) :
    roleOverlayCheck u c value = .ok () ∨
      ∃ m, roleOverlayCheck u c value = .error (.validation m) := by
  unfold roleOverlayCheck
  split_ifs <;> first | exact Or.inl rfl | exact Or.inr ⟨_, rfl⟩

/-- The transition-table check rejects a changed status outside the
allowed list of a status that has a table entry. -/
lemma transitionCheck_rejects {σ : Type} [DecidableEq σ]
    (table : σ → Option (List σ)) (current value : σ) (allowed : List σ)
    (hne : value ≠ current) (ht : table current = some allowed)
    (hnin : value ∉ allowed) :
    transitionCheck table current value = .error (.validation "Cannot transition") := by
  unfold transitionCheck
  rw [if_neg hne, ht]
  exact if_neg hnin

/-- A student moving `pending` to `assigned` with no carrier is rejected. -/
lemma roleOverlay_student_rejects (u : User) (c : Cargo) (value : CargoStatus)
    (hr : u.role = .student) (hs : c.status = .pending)
    (hv : value = .assigned) (ha : c.assigned_to = none) :
    roleOverlayCheck u c value =
      .error (.validation "Cannot mark as assigned without carrier") := by
  unfold roleOverlayCheck
  rw [if_pos hr, if_pos ⟨hs, hv, ha⟩]

/-- A carrier acting on a cargo not assigned to them, or requesting a
status other than `in_progress`/`completed`, is rejected. -/
lemma roleOverlay_carrier_rejects (u : User) (c : Cargo) (value : CargoStatus)
    (hr : u.role = .carrier)
    (h : c.assigned_to ≠ some u.id ∨
      value ∉ [CargoStatus.in_progress, CargoStatus.completed]) :
    ∃ m, roleOverlayCheck u c value = .error (.validation m) := by
  unfold roleOverlayCheck
  rw [if_neg (by rw [hr]; intro hcon; cases hcon), if_pos hr]
  rcases h with h | h
  · exact ⟨_, by rw [if_pos h]⟩
  · by_cases ha : c.assigned_to ≠ some u.id
    · exact ⟨_, by rw [if_pos ha]⟩
    · exact ⟨_, by rw [if_neg ha, if_pos h]⟩

/-- A rejected status update leaves the persisted row untouched. -/
lemma afterStatusUpdate_of_error (u : User) (now : Nat) (c : Cargo)
    (value : CargoStatus) (e : VErr)
    (h : applyStatusUpdate u now c value = .error e) :
    cargoAfterStatusUpdate u now c value = c := by
  unfold cargoAfterStatusUpdate
  rw [h]

/-! ## Claims -/

/-- C2 counterexample input: all three dimensions set, `length = 0`. -/
def c2zeroCargo : Cargo :=
  { id := 1, title := "Steel Products", status := .draft, weight := none,
    volume := some 5, length := some 0, width := some 1, height := some 1,
    loading_point := "Tashkent", unloading_point := "Moscow",
    loading_date := 20240201, owner := 1, assigned_to := none,
    managed_by := none, approved_by := none, approval_notes := none,
    approval_date := none }

/-- C2 counterexample: a cargo whose `length`, `width`, `height` are all
set but with `length = 0` keeps its stale `volume` after save, because
`all([...])` treats the decimal `0` as falsy. -/
theorem C2_counterexample :
    c2zeroCargo.length = some 0 ∧ c2zeroCargo.width = some 1 ∧
    c2zeroCargo.height = some 1 ∧
    (cargoSave 20240202 c2zeroCargo).volume = some 5 ∧
    (cargoSave 20240202 c2zeroCargo).volume ≠
      some (c2zeroCargo.length.getD 0 * c2zeroCargo.width.getD 0 *
        c2zeroCargo.height.getD 0) := by
  refine ⟨rfl, rfl, rfl, rfl, ?_⟩
  simp [cargoSave, c2zeroCargo, truthyQ]

/-- C2 (amended): after any save, if `length`, `width` and `height` are
all set **and nonzero**, the stored volume is their product. -/
theorem C2_volume_product_after_save (now : Nat) (c : Cargo) (l w h : ℚ)
    (hl : c.length = some l) (hw : c.width = some w) (hh : c.height = some h)
    (hl0 : l ≠ 0) (hw0 : w ≠ 0) (hh0 : h ≠ 0) :
    (cargoSave now c).volume = some (l * w * h) := by
  simp only [cargoSave]
  rw [hl, hw, hh]
  simp [truthyQ, hl0, hw0, hh0]
  split_ifs <;> rfl

/-- C2 witness input: a cargo with dimensions 2 × 3 × 4. -/
def c2dimCargo : Cargo :=
  { c2zeroCargo with length := some 2, width := some 3, height := some 4 }

/-- C2 witness: a concrete saved cargo with dimensions 2 × 3 × 4 stores
volume 24. -/
theorem C2_volume_product_after_save_witness :
    (cargoSave 5 c2dimCargo).volume = some (2 * 3 * 4) :=
  C2_volume_product_after_save 5 c2dimCargo
    2 3 4 rfl rfl rfl (by norm_num) (by norm_num) (by norm_num)

/-- C10: re-submitting the very status an object already holds always
passes the transition-table check — the `value != current_status`
conjunct short-circuits before the table lookup — for every cargo status
(terminal and table-missing ones included), every carrier-request status,
and the whole carrier-request validator (which has no role overlay). -/
theorem C10_resubmit_current_status_passes :
    (∀ s : CargoStatus, transitionCheck cargoValidTransitions s s = .ok ()) ∧
    (∀ t : CRStatus, transitionCheck crValidTransitions t t = .ok ()) ∧
    (∀ inst : CarrierRequest, crValidateStatus inst inst.status = .ok inst.status) := by
  refine ⟨fun s => ?_, fun t => ?_, fun inst => ?_⟩
  · unfold transitionCheck; rw [if_pos rfl]
  · unfold transitionCheck; rw [if_pos rfl]
  · unfold crValidateStatus transitionCheck; rw [if_pos rfl]

/-- C1: a cargo status-update request is rejected with a validation error
— and the stored status is unchanged — whenever the requested status
differs from the current one and is outside the transition table's
allowed set, and likewise whenever the role overlay forbids it (a carrier
may only request `in_progress`/`completed` on cargo assigned to them; a
student may move `pending` to `assigned` only with a carrier assigned). -/
theorem C1_invalid_status_update_rejected (u : User) (now : Nat) (c : Cargo)
    (value : CargoStatus)
    (h : (value ≠ c.status ∧ ∃ allowed,
            cargoValidTransitions c.status = some allowed ∧ value ∉ allowed)
       ∨ (u.role = .carrier ∧ (c.assigned_to ≠ some u.id ∨
            value ∉ [CargoStatus.in_progress, CargoStatus.completed]))
       ∨ (u.role = .student ∧ c.status = .pending ∧ value = .assigned ∧
            c.assigned_to = none)) :
    (∃ msg, applyStatusUpdate u now c value = .error (.validation msg)) ∧
    (cargoAfterStatusUpdate u now c value).status = c.status := by
  have herr : ∃ msg, applyStatusUpdate u now c value = .error (.validation msg) := by
    rcases h with ⟨hne, allowed, ht, hnin⟩ | ⟨hr, hcar⟩ | ⟨hr, hs, hv, ha⟩
    · rcases roleOverlay_ok_or_validation u c value with hok | ⟨m, hm⟩
      · refine ⟨"Cannot transition", ?_⟩
        unfold applyStatusUpdate cargoValidateStatus
        rw [hok, transitionCheck_rejects cargoValidTransitions c.status value
          allowed hne ht hnin]
      · refine ⟨m, ?_⟩
        unfold applyStatusUpdate cargoValidateStatus
        rw [hm]
    · obtain ⟨m, hm⟩ := roleOverlay_carrier_rejects u c value hr hcar
      refine ⟨m, ?_⟩
      unfold applyStatusUpdate cargoValidateStatus
      rw [hm]
    · refine ⟨"Cannot mark as assigned without carrier", ?_⟩
      unfold applyStatusUpdate cargoValidateStatus
      rw [roleOverlay_student_rejects u c value hr hs hv ha]
  obtain ⟨msg, hmsg⟩ := herr
  exact ⟨⟨msg, hmsg⟩, by rw [afterStatusUpdate_of_error u now c value _ hmsg]⟩

/-- C1 witness input: a completed cargo. -/
def c1completedCargo : Cargo :=
  { id := 2, title := "Done", status := .completed, weight := none,
    volume := none, length := none, width := none, height := none,
    loading_point := "Tashkent", unloading_point := "Moscow",
    loading_date := 20240201, owner := 1, assigned_to := none,
    managed_by := none, approved_by := none, approval_notes := none,
    approval_date := none }

/-- C1 witness: the owner (a student) asking to move a `completed` cargo
to `pending` is rejected and the status stays `completed`. -/
theorem C1_invalid_status_update_rejected_witness :
    (∃ msg, applyStatusUpdate ⟨1, .student, true⟩ 7 c1completedCargo .pending =
      .error (.validation msg)) ∧
    (cargoAfterStatusUpdate ⟨1, .student, true⟩ 7 c1completedCargo .pending).status =
      c1completedCargo.status :=
  C1_invalid_status_update_rejected ⟨1, .student, true⟩ 7 c1completedCargo .pending
    (Or.inl ⟨by decide, [], rfl, by decide⟩)

/-- C3: an assignment attempt with a carrier request that is not pending,
or that is already bound to a cargo, fails with a validation error, and
neither the cargo nor the carrier request is modified. -/
theorem C3_invalid_assignment_rejected (u : User) (now : Nat) (c : Cargo)
    (cr : CarrierRequest)
    (h : cr.status ≠ .pending ∨ cr.assigned_cargo.isSome) :
    (∃ m, assignCarrier u now c cr = .error (.validation m)) ∧
    assignAfter u now c cr = (c, cr) := by
  have herr : ∃ m, assignCarrier u now c cr = .error (.validation m) := by
    unfold assignCarrier
    rcases h with h | h
    · exact ⟨_, by rw [if_pos h]⟩
    · by_cases hp : cr.status ≠ .pending
      · exact ⟨_, by rw [if_pos hp]⟩
      · exact ⟨_, by rw [if_neg hp, if_pos h]⟩
  obtain ⟨m, hm⟩ := herr
  refine ⟨⟨m, hm⟩, ?_⟩
  unfold assignAfter
  rw [hm]

/-- C3 witness input: a carrier request already bound to cargo 9. -/
def c3boundCR : CarrierRequest :=
  { id := 3, carrier := 5, loading_point := "Tashkent",
    unloading_point := "Moscow", ready_date := 20240125, status := .pending,
    assigned_cargo := some 9, assigned_by := none, assigned_at := none }

/-- C3 witness: assigning an already-bound (though pending) carrier
request fails and changes nothing. -/
theorem C3_invalid_assignment_rejected_witness :
    (∃ m, assignCarrier ⟨1, .student, true⟩ 50 c1completedCargo c3boundCR =
      .error (.validation m)) ∧
    assignAfter ⟨1, .student, true⟩ 50 c1completedCargo c3boundCR =
      (c1completedCargo, c3boundCR) :=
  C3_invalid_assignment_rejected ⟨1, .student, true⟩ 50 c1completedCargo
    c3boundCR (Or.inr (by decide))

/-- C4: a successful assignment of a pending, unbound carrier request
sets the cargo's status to `assigned` with `assigned_to` the request's
carrier, and sets the request's status to `assigned`, binds it to the
cargo, stamps `assigned_by` with the requesting user and `assigned_at`
with the current time. -/
theorem C4_successful_assignment (u : User) (now : Nat) (c : Cargo)
    (cr : CarrierRequest)
    (h1 : cr.status = .pending) (h2 : cr.assigned_cargo = none) :
    ∃ c2 cr2, assignCarrier u now c cr = .ok (c2, cr2) ∧
      c2.status = .assigned ∧ c2.assigned_to = some cr.carrier ∧
      cr2.status = .assigned ∧ cr2.assigned_cargo = some c.id ∧
      cr2.assigned_by = some u.id ∧ cr2.assigned_at = some now := by
  unfold assignCarrier
  rw [if_neg (by simp [h1]), if_neg (by simp [h2])]
  refine ⟨_, _, rfl, ?_, ?_, rfl, rfl, rfl, rfl⟩
  · exact (cargoSave_preserves now _).1.trans rfl
  · exact (cargoSave_preserves now _).2.1.trans rfl

/-- C4 witness input: a pending, unbound carrier request from carrier 5. -/
def c4pendingCR : CarrierRequest :=
  { id := 4, carrier := 5, loading_point := "Tashkent",
    unloading_point := "Moscow", ready_date := 20240125, status := .pending,
    assigned_cargo := none, assigned_by := none, assigned_at := none }

/-- C4 witness: the assignment of a concrete pending request succeeds and
stamps every claimed field. -/
theorem C4_successful_assignment_witness :
    ∃ c2 cr2,
      assignCarrier ⟨1, .student, true⟩ 60 c1completedCargo c4pendingCR =
        .ok (c2, cr2) ∧
      c2.status = .assigned ∧ c2.assigned_to = some c4pendingCR.carrier ∧
      cr2.status = .assigned ∧ cr2.assigned_cargo = some c1completedCargo.id ∧
      cr2.assigned_by = some (1 : Nat) ∧ cr2.assigned_at = some 60 :=
  C4_successful_assignment ⟨1, .student, true⟩ 60 c1completedCargo c4pendingCR
    rfl rfl

/-- C5: `Cargo.approve` by a manager sets status `manager_approved`,
`approved_by`, `approval_notes` and stamps `approval_date`; for any
non-manager it raises and leaves the cargo unchanged. -/
theorem C5_manager_approval (m : User) (notes : Option String) (now : Nat)
    (c : Cargo) :
    (m.role = .manager →
      ∃ c2, cargoApprove m notes now c = .ok c2 ∧
        c2.status = .manager_approved ∧ c2.approved_by = some m.id ∧
        c2.approval_notes = notes ∧ c2.approval_date = some now) ∧
    (m.role ≠ .manager →
      cargoApprove m notes now c = .error "Only managers can approve cargos" ∧
      cargoAfterApprove m notes now c = c) := by
  constructor
  · intro hr
    unfold cargoApprove
    rw [if_neg (by simp [hr])]
    refine ⟨_, rfl, ?_, ?_, ?_, ?_⟩
    · exact (cargoSave_preserves now _).1.trans rfl
    · exact (cargoSave_preserves now _).2.2.1.trans rfl
    · exact (cargoSave_preserves now _).2.2.2.1.trans rfl
    · exact cargoSave_approval_date now now _ rfl
  · intro hr
    have he : cargoApprove m notes now c =
        .error "Only managers can approve cargos" := by
      unfold cargoApprove
      rw [if_pos hr]
    refine ⟨he, ?_⟩
    unfold cargoAfterApprove
    rw [he]

/-- C5 witness input: a cargo awaiting manager approval. -/
def c5pendingCargo : Cargo :=
  { id := 6, title := "Steel Products", status := .pending_approval,
    weight := none, volume := none, length := none, width := none,
    height := none, loading_point := "Tashkent", unloading_point := "Moscow",
    loading_date := 20240201, owner := 1, assigned_to := none,
    managed_by := none, approved_by := none, approval_notes := none,
    approval_date := none }

/-- C5 witness: a concrete manager approval stamps all fields, and a
concrete student's attempt raises and changes nothing. -/
theorem C5_manager_approval_witness :
    (∃ c2, cargoApprove ⟨10, .manager, true⟩ (some "ok") 99 c5pendingCargo =
        .ok c2 ∧
      c2.status = .manager_approved ∧ c2.approved_by = some (10 : Nat) ∧
      c2.approval_notes = some "ok" ∧ c2.approval_date = some 99) ∧
    (cargoApprove ⟨11, .student, true⟩ none 99 c5pendingCargo =
        .error "Only managers can approve cargos" ∧
      cargoAfterApprove ⟨11, .student, true⟩ none 99 c5pendingCargo =
        c5pendingCargo) :=
  ⟨(C5_manager_approval ⟨10, .manager, true⟩ (some "ok") 99 c5pendingCargo).1
      rfl,
   (C5_manager_approval ⟨11, .student, true⟩ none 99 c5pendingCargo).2
      (by decide)⟩

/-- C6 counterexample hash stand-in (a fixed 32-hex-character digest). -/
def c6md5 : String → String := fun _ => "0123456789abcdef0123456789abcdef"

/-- C6 counterexample per-order creation outcome. -/
def c6process : ExternalOrder → Except String CreatedCargo :=
  fun _ => .error "invalid order"

/-- C6 counterexample: a request with an empty `orders` list and a hash
that does not match is answered with 400 (missing required fields), not
with 401, so "every request whose hash does not match returns 401" fails
as stated.  (No Cargo records are created either way.) -/
theorem C6_counterexample :
    c6md5 ("k" ++ "a" ++ "1") ≠ "deadbeef" ∧
    createExternal c6md5 "k" c6process "a" "1" "deadbeef" [] =
      .badRequest "Missing required fields" ∧
    createExternal c6md5 "k" c6process "a" "1" "deadbeef" [] ≠
      .unauthorized := by
  exact ⟨by decide, rfl, by decide⟩

/-- C6 (amended): a cargo-creating (201) response is only ever produced
when the supplied hash equals the digest of
`private_key + api_key + created_at`; and every request that carries all
required fields but whose hash does not match is answered 401 with no
Cargo records created. -/
theorem C6_hash_gate (md5hex : String → String) (pk : String)
    (process : ExternalOrder → Except String CreatedCargo)
    (ak ca rh : String) (orders : List ExternalOrder) :
    ((∃ cs es, createExternal md5hex pk process ak ca rh orders =
        .created cs es) → md5hex (pk ++ ak ++ ca) = rh) ∧
    (ak ≠ "" → ca ≠ "" → rh ≠ "" → orders ≠ [] →
      md5hex (pk ++ ak ++ ca) ≠ rh →
      createExternal md5hex pk process ak ca rh orders = .unauthorized ∧
      externalCreatedRecords
        (createExternal md5hex pk process ak ca rh orders) = []) := by
  constructor
  · rintro ⟨cs, es, hcr⟩
    unfold createExternal at hcr
    by_cases hmiss : ak = "" ∨ ca = "" ∨ rh = "" ∨ orders = []
    · rw [if_pos hmiss] at hcr
      cases hcr
    · rw [if_neg hmiss] at hcr
      by_cases hh : md5hex (pk ++ ak ++ ca) ≠ rh
      · rw [if_pos hh] at hcr
        cases hcr
      · exact not_not.mp hh
  · intro h1 h2 h3 h4 hh
    have hu : createExternal md5hex pk process ak ca rh orders =
        .unauthorized := by
      unfold createExternal
      rw [if_neg (by push_neg; exact ⟨h1, h2, h3, h4⟩), if_pos hh]
    refine ⟨hu, ?_⟩
    rw [hu]
    rfl

/-- C6 witness order. -/
def c6order : ExternalOrder := { source_id := "s1", payload := "steel" }

/-- C6 witness: a concrete well-formed request with a wrong hash gets 401
and creates nothing, and a concrete 201 response implies its hash
matched the digest of the concatenation. -/
theorem C6_hash_gate_witness :
    (createExternal c6md5 "k" c6process "a" "1" "deadbeef" [c6order] =
        .unauthorized ∧
      externalCreatedRecords
        (createExternal c6md5 "k" c6process "a" "1" "deadbeef" [c6order]) = []) ∧
    c6md5 ("k" ++ "a" ++ "1") = "0123456789abcdef0123456789abcdef" :=
  ⟨(C6_hash_gate c6md5 "k" c6process "a" "1" "deadbeef" [c6order]).2
      (by decide) (by decide) (by decide) (by decide) (by decide),
   (C6_hash_gate c6md5 "k" c6process "a" "1"
      "0123456789abcdef0123456789abcdef" [c6order]).1
      ⟨[], ["invalid order"], by decide⟩⟩

/-- C9 cargo from the spec's "Steel Products" example. -/
def c9steelCargo : Cargo :=
  { id := 9, title := "Steel Products", status := .pending,
    weight := some (41 / 2), volume := none, length := none, width := none,
    height := none, loading_point := "Tashkent", unloading_point := "Moscow",
    loading_date := 20240201, owner := 1, assigned_to := none,
    managed_by := none, approved_by := none, approval_notes := none,
    approval_date := none }

/-- C9 counterexample input: a cancelled carrier request that matches the
cargo on dates and both point substrings. -/
def c9cancelledCR : CarrierRequest :=
  { id := 90, carrier := 5, loading_point := "Tashkent",
    unloading_point := "Moscow", ready_date := 20240125,
    status := .cancelled, assigned_cargo := none, assigned_by := none,
    assigned_at := none }

/-- C9 counterexample: the endpoint filters on `status='pending'`, which
the claim omits — a cancelled carrier request satisfying every condition
the claim states does not appear in `matching_carriers`. -/
theorem C9_counterexample :
    c9steelCargo.status = .pending ∧
    c9cancelledCR.ready_date ≤ c9steelCargo.loading_date ∧
    icontains c9cancelledCR.loading_point c9steelCargo.loading_point = true ∧
    icontains c9cancelledCR.unloading_point c9steelCargo.unloading_point = true ∧
    c9cancelledCR ∉ matchingCarriers c9steelCargo [c9cancelledCR] := by
  exact ⟨rfl, by decide, by decide, by decide, by decide⟩

/-- C9 (amended): every **pending** carrier request whose `ready_date` is
at most the cargo's `loading_date` and whose loading/unloading point
strings contain the cargo's points as case-insensitive substrings appears
in the cargo's `matching_carriers` result. -/
theorem C9_matching_carriers_complete (c : Cargo)
    (requests : List CarrierRequest) (r : CarrierRequest)
    (hc : c.status = .pending) (hmem : r ∈ requests)
    (hst : r.status = .pending) (hd : r.ready_date ≤ c.loading_date)
    (hlp : icontains r.loading_point c.loading_point = true)
    (hup : icontains r.unloading_point c.unloading_point = true) :
    r ∈ matchingCarriers c requests := by
  unfold matchingCarriers
  refine List.mem_filter.mpr ⟨hmem, ?_⟩
  simp [hst, hd, hlp, hup]

/-- C9 witness input: the matching pending carrier request of the spec's
example. -/
def c9pendingCR : CarrierRequest :=
  { id := 91, carrier := 5, loading_point := "Tashkent",
    unloading_point := "Moscow", ready_date := 20240125, status := .pending,
    assigned_cargo := none, assigned_by := none, assigned_at := none }

/-- C9 witness: the spec's example — a pending carrier request ready by
2024-02-01 with matching point strings appears in `matching_carriers` of
the "Steel Products" cargo. -/
theorem C9_matching_carriers_complete_witness :
    c9pendingCR ∈ matchingCarriers c9steelCargo [c9cancelledCR, c9pendingCR] :=
  C9_matching_carriers_complete c9steelCargo [c9cancelledCR, c9pendingCR]
    c9pendingCR rfl (by decide) rfl (by decide) (by decide) (by decide)

/-- `atan2 0 1 = 0` (the origin-distance case of the Haversine formula). -/
lemma atan2_zero_one : atan2 0 1 = 0 := by
  unfold atan2
  rw [if_pos one_pos]
  simp [Real.arctan_zero]

/-- The Haversine intermediate vanishes on coinciding points. -/
lemma havA_self (lat lon : ℝ) : havA lat lon lat lon = 0 := by
  unfold havA
  simp

/-- The Haversine intermediate is symmetric in its two points. -/
lemma havA_symm (lat1 lon1 lat2 lon2 : ℝ) :
    havA lat1 lon1 lat2 lon2 = havA lat2 lon2 lat1 lon1 := by
  unfold havA
  have h : ∀ u v : ℝ, Real.sin ((u - v) / 2) ^ 2 = Real.sin ((v - u) / 2) ^ 2 := by
    intro u v
    rw [show (u - v) / 2 = -((v - u) / 2) by ring, Real.sin_neg]
    ring
  rw [h (lat2 * Real.pi / 180) (lat1 * Real.pi / 180),
    h (lon2 * Real.pi / 180) (lon1 * Real.pi / 180)]
  ring

/-- The distance from a point to itself is zero. -/
lemma calculate_distance_self (lat lon : ℝ) :
    calculate_distance lat lon lat lon = 0 := by
  unfold calculate_distance
  rw [havA_self]
  simp [Real.sqrt_zero, Real.sqrt_one, atan2_zero_one]

/-- The distance is symmetric in its two points. -/
lemma calculate_distance_symm (lat1 lon1 lat2 lon2 : ℝ) :
    calculate_distance lat1 lon1 lat2 lon2 =
      calculate_distance lat2 lon2 lat1 lon1 := by
  unfold calculate_distance
  rw [havA_symm]

/-- C8: `calculate_distance` of a point with itself is `0`, and
`calculate_distance` is symmetric in its two arguments. -/
theorem C8_distance_zero_self_and_symmetric :
    (∀ lat lon : ℝ, calculate_distance lat lon lat lon = 0) ∧
    (∀ lat1 lon1 lat2 lon2 : ℝ,
      calculate_distance lat1 lon1 lat2 lon2 =
        calculate_distance lat2 lon2 lat1 lon1) :=
  ⟨calculate_distance_self, calculate_distance_symm⟩

instance : IsTotal LocEntry (fun a b => a.distance ≤ b.distance) :=
  ⟨fun a b => le_total a.distance b.distance⟩

instance : IsTrans LocEntry (fun a b => a.distance ≤ b.distance) :=
  ⟨fun _ _ _ hab hbc => le_trans hab hbc⟩

/-- C7 counterexample input: a level-3 location with both coordinates set
(to the decimal `0`). -/
def c7equatorLoc : Location :=
  { id := 70, name := "Null Island", level := 3, latitude := some 0,
    longitude := some 0, full_name := "Null Island" }

/-- C7 counterexample: a level-3 location with both coordinates set and
distance `0` from the query point is dropped, because `if
location.latitude and location.longitude` treats the decimal `0` as
falsy; the claim's "having both latitude and longitude" is not enough. -/
theorem C7_counterexample :
    c7equatorLoc.level = 3 ∧ c7equatorLoc.latitude.isSome = true ∧
    c7equatorLoc.longitude.isSome = true ∧
    locDist 0 0 c7equatorLoc ≤ 100 ∧
    find_locations_in_radius 0 0 100 3 [c7equatorLoc] = [] := by
  refine ⟨rfl, rfl, rfl, ?_, ?_⟩
  · have h0 : locDist 0 0 c7equatorLoc = 0 := by
      simp [locDist, c7equatorLoc, calculate_distance_self]
    rw [h0]
    norm_num
  · rfl

/-- C7 (amended): `find_locations_in_radius` returns exactly the level-3
locations whose latitude and longitude are both set **and nonzero** and
whose Haversine distance from the query point is at most the radius, and
the returned entries are sorted ascending by their `distance` value. -/
theorem C7_radius_search (qlat qlon radius : ℝ) (locs : List Location) :
    (∀ e, e ∈ find_locations_in_radius qlat qlon radius 3 locs ↔
      ∃ loc, loc ∈ locs ∧ loc.level = 3 ∧ truthyQ loc.latitude = true ∧
        truthyQ loc.longitude = true ∧ locDist qlat qlon loc ≤ radius ∧
        e = locEntry qlat qlon loc) ∧
    (find_locations_in_radius qlat qlon radius 3 locs).Sorted
      (fun a b => a.distance ≤ b.distance) := by
  constructor
  · intro e
    unfold find_locations_in_radius
    rw [List.mem_insertionSort, List.mem_filterMap]
    constructor
    · rintro ⟨loc, hloc, hsome⟩
      rw [List.mem_filter] at hloc
      split_ifs at hsome with h1 h2
      · injection hsome with he
        obtain ⟨h1a, h1b⟩ := Bool.and_eq_true_iff.mp h1
        exact ⟨loc, hloc.1, by simpa using hloc.2, h1a, h1b, h2, he.symm⟩
    · rintro ⟨loc, hmem, hlvl, hla, hlo, hd, rfl⟩
      refine ⟨loc, List.mem_filter.mpr ⟨hmem, by simp [hlvl]⟩, ?_⟩
      rw [if_pos (by rw [hla, hlo]; rfl), if_pos hd]
  · unfold find_locations_in_radius
    exact List.sorted_insertionSort _ _

end Logit
